import Mathlib

/-!
Verification of the ufile-rus3 transfer engine against its specification.

The definitions below are a shallow embedding of the Rust sources:

* `src/constant.rs`              — size and concurrency constants
* `src/api/download_file.rs`     — ranged download coordinator
* `src/api/object_api.rs`        — multipart upload coordinator
* `src/auth.rs`                  — canonical string + authorization header
* `src/api/object.rs`            — `ObjectConfig::authorization_private_url`
* `src/api/multipart_finish.rs` / `src/api/finish_multipart_api.rs`
                                 — Finish request body construction
* `src/api/part_file_api.rs` / `src/api/multipart_file.rs`
                                 — part upload URL construction
* `src/api/multipart_init.rs` / `src/api/init_part_api.rs`
                                 — init operation (Date header formatting)

Machine integers (`u64`, `usize`) are modelled as `Nat`: all quantities
involved are file sizes, counts and indexes far below `2^64`, and none of
the modelled expressions rely on wrapping behaviour.
-/

namespace Ufile

/-! ### Constants (`src/constant.rs`) -/

/-- `MULTIPART_SIZE: u32 = 4 << 20` — the fixed 4MB chunk size. -/
def MULTIPART_SIZE : Nat := 4 <<< 20

/-- `DEFAULT_CONCURRENCY: usize = 8`. -/
def DEFAULT_CONCURRENCY : Nat := 8

/-! ### Ranged download split (`src/api/download_file.rs`, `execute`) -/

/-- Rust `u64::div_ceil`: `a.div_ceil(b) = a / b + (if a % b == 0 then 0 else 1)`
for unsigned integers. -/
def u64DivCeil (a b : Nat) : Nat :=
  a / b + (if a % b = 0 then 0 else 1)

/-- `let chunk_count = (total_file_size + constant::MULTIPART_SIZE as u64 - 1)
        .div_ceil(constant::MULTIPART_SIZE as u64);`
(download_file.rs lines 106-107). -/
def downloadChunkCount (totalFileSize : Nat) : Nat :=
  u64DivCeil (totalFileSize + MULTIPART_SIZE - 1) MULTIPART_SIZE

/-- `let ranges = (0..chunk_count).map(|i| { let start = i * MULTIPART_SIZE;
let end = ((i + 1) * MULTIPART_SIZE).min(total_file_size); Range { start, end } })`
(download_file.rs lines 109-115).  A pair `(start, end)` models `Range`. -/
def downloadRanges (totalFileSize : Nat) : List (Nat × Nat) :=
  (List.range (downloadChunkCount totalFileSize)).map fun i =>
    (i * MULTIPART_SIZE, min ((i + 1) * MULTIPART_SIZE) totalFileSize)

/-- `format!("bytes={}-{}", range.start, range.end)` — the `Range` header value
sent for one chunk (download_file.rs lines 166-171). -/
def rangeHeaderValue (r : Nat × Nat) : String :=
  "bytes=" ++ toString r.1 ++ "-" ++ toString r.2

/-! ### Multipart upload split (`src/api/object_api.rs`, `execute`) -/

/-- `let part_count = (file_size + blk_size - 1) / blk_size;`
(object_api.rs line 119). -/
def uploadPartCount (fileSize blkSize : Nat) : Nat :=
  (fileSize + blkSize - 1) / blkSize

/-- The per-part buffer sizes produced by the `remaining_size` loop of
object_api.rs lines 144-163: at each index the buffer size is
`if blk_size > remaining_size { remaining_size } else { blk_size }` and the
remaining size decreases by `blk_size` while it is still larger. -/
def uploadBufferSizes (fileSize blkSize : Nat) : List Nat :=
  (List.range (uploadPartCount fileSize blkSize)).foldl
    (fun (acc : List Nat × Nat) _ =>
      let bufferSize := if blkSize > acc.2 then acc.2 else blkSize
      let remaining := if acc.2 > blkSize then acc.2 - blkSize else acc.2
      (acc.1 ++ [bufferSize], remaining))
    ([], fileSize) |>.1

/-- The byte range covered by upload part `i`: offset `index * blk_size`
(object_api.rs line 167) with the buffer size at that index. -/
def uploadRanges (fileSize blkSize : Nat) : List (Nat × Nat) :=
  ((uploadBufferSizes fileSize blkSize).enum).map fun p =>
    (p.1 * blkSize, p.1 * blkSize + p.2)

/-! ### HMAC-SHA1 and base64 (the `hmac`/`sha1`/`base64` crates used by
`src/auth.rs`).  These external crates implement the standard algorithms
(RFC 3174, RFC 2104, RFC 4648); they are embedded here over `List Nat`
byte sequences so that the signing pipeline of `auth.rs` is executable. -/

/-- Truncate to a 32-bit word. -/
def mask32 (x : Nat) : Nat := x % 4294967296

/-- 32-bit left rotation. -/
def rotl32 (x n : Nat) : Nat := mask32 (x <<< n) ||| (x >>> (32 - n))

/-- Big-endian bytes of a 32-bit word. -/
def beBytes4 (n : Nat) : List Nat :=
  (List.range 4).map fun i => (n >>> (8 * (3 - i))) % 256

/-- Big-endian bytes of a 64-bit word. -/
def beBytes8 (n : Nat) : List Nat :=
  (List.range 8).map fun i => (n >>> (8 * (7 - i))) % 256

/-- A big-endian 32-bit word from four bytes. -/
def word32OfBytes (bs : List Nat) : Nat := bs.foldl (fun a b => a * 256 + b) 0

/-- SHA-1 message padding: `0x80`, zeros to 56 mod 64, then the bit length. -/
def sha1Pad (msg : List Nat) : List Nat :=
  let zeros := (64 + 56 - ((msg.length + 1) % 64)) % 64
  msg ++ [128] ++ List.replicate zeros 0 ++ beBytes8 (8 * msg.length)

/-- The 16 schedule words of one 64-byte block. -/
def blockWords (block : List Nat) : List Nat :=
  (List.range 16).map fun i => word32OfBytes ((block.drop (4 * i)).take 4)

/-- Extend 16 schedule words to 80: `w t = rotl1 (w (t-3) ^ w (t-8) ^ w (t-14) ^ w (t-16))`. -/
def extendWords (ws : List Nat) : List Nat :=
  (List.range 64).foldl
    (fun acc _ =>
      let x := Nat.xor (Nat.xor (acc.getD (acc.length - 3) 0) (acc.getD (acc.length - 8) 0))
        (Nat.xor (acc.getD (acc.length - 14) 0) (acc.getD (acc.length - 16) 0))
      acc ++ [rotl32 x 1])
    ws

/-- The SHA-1 round function. -/
def sha1F (t b c d : Nat) : Nat :=
  if t < 20 then (b &&& c) ||| ((Nat.xor b 4294967295) &&& d)
  else if t < 40 then Nat.xor (Nat.xor b c) d
  else if t < 60 then (b &&& c) ||| ((b &&& d) ||| (c &&& d))
  else Nat.xor (Nat.xor b c) d

/-- The SHA-1 round constants. -/
def sha1K (t : Nat) : Nat :=
  if t < 20 then 0x5A827999
  else if t < 40 then 0x6ED9EBA1
  else if t < 60 then 0x8F1BBCDC
  else 0xCA62C1D6

/-- One SHA-1 compression step over a 64-byte block. -/
def sha1Compress (h : Nat × Nat × Nat × Nat × Nat) (block : List Nat) :
    Nat × Nat × Nat × Nat × Nat :=
  let ws := extendWords (blockWords block)
  let (h0, h1, h2, h3, h4) := h
  let st := (List.range 80).foldl
    (fun (st : Nat × Nat × Nat × Nat × Nat) t =>
      let (a, b, c, d, e) := st
      let temp := mask32 (rotl32 a 5 + sha1F t b c d + e + sha1K t + ws.getD t 0)
      (temp, a, rotl32 b 30, c, d))
    (h0, h1, h2, h3, h4)
  let (a, b, c, d, e) := st
  (mask32 (h0 + a), mask32 (h1 + b), mask32 (h2 + c), mask32 (h3 + d), mask32 (h4 + e))

/-- SHA-1 digest of a byte sequence (RFC 3174). -/
def sha1 (msg : List Nat) : List Nat :=
  let padded := sha1Pad msg
  let blocks := (List.range (padded.length / 64)).map fun i => (padded.drop (64 * i)).take 64
  let h := blocks.foldl sha1Compress (0x67452301, 0xEFCDAB89, 0x98BADCFE, 0x10325476, 0xC3D2E1F0)
  beBytes4 h.1 ++ beBytes4 h.2.1 ++ beBytes4 h.2.2.1 ++ beBytes4 h.2.2.2.1 ++ beBytes4 h.2.2.2.2

/-- HMAC-SHA1 (RFC 2104): block size 64, `ipad = 0x36`, `opad = 0x5c`. -/
def hmacSha1 (key msg : List Nat) : List Nat :=
  let key := if key.length > 64 then sha1 key else key
  let key := key ++ List.replicate (64 - key.length) 0
  let ipadKey := key.map fun b => Nat.xor b 54
  let opadKey := key.map fun b => Nat.xor b 92
  sha1 (opadKey ++ sha1 (ipadKey ++ msg))

/-- The standard base64 alphabet (RFC 4648). -/
def base64Table : List Char :=
  "ABCDEFGHIJKLMNOPQRSTUVWXYZabcdefghijklmnopqrstuvwxyz0123456789+/".toList

/-- Base64 encoding with `=` padding, as `base64::engine::general_purpose::STANDARD`. -/
def base64Encode (bs : List Nat) : String :=
  let tbl := fun i => base64Table.getD i ' '
  let groups := (List.range ((bs.length + 2) / 3)).map fun i => (bs.drop (3 * i)).take 3
  String.mk <| groups.foldl
    (fun acc g =>
      match g with
      | [b0] => acc ++ [tbl (b0 >>> 2), tbl ((b0 % 4) <<< 4), '=', '=']
      | [b0, b1] =>
        acc ++ [tbl (b0 >>> 2), tbl (((b0 % 4) <<< 4) ||| (b1 >>> 4)), tbl ((b1 % 16) <<< 2), '=']
      | [b0, b1, b2] =>
        acc ++ [tbl (b0 >>> 2), tbl (((b0 % 4) <<< 4) ||| (b1 >>> 4)),
          tbl (((b1 % 16) <<< 2) ||| (b2 >>> 6)), tbl (b2 % 64)]
      | _ => acc)
    []

/-- The UTF-8 bytes of a string — Rust `str::as_bytes`. -/
def strBytes (s : String) : List Nat :=
  (s.data.flatMap String.utf8EncodeChar).map UInt8.toNat

/-- `HmacSha1Signer::signature` (auth.rs lines 17-28): base64 of the
HMAC-SHA1 of the data bytes under the private key bytes.  The Rust function
returns `Result`, but `HmacSha1::new_from_slice` accepts every key, so the
error branch is unreachable and the embedding is total. -/
def hmacSha1Signature (privateKey data : String) : String :=
  base64Encode (hmacSha1 (strBytes privateKey) (strBytes data))

/-! ### Authorization service (`src/auth.rs`, `src/api/object.rs`) -/

/-- `ObjectOptAuthParam` (object.rs lines 31-67).  `method` is the string of
the `reqwest::Method` verb (`Method::as_str`). -/
structure ObjectOptAuthParam where
  method : String
  bucket : String
  key_name : String
  content_type : Option String := none
  content_md5 : Option String := none
  date : Option String := none
  x_ufile_copy_source : Option String := none
  x_ufile_copy_source_range : Option String := none
deriving DecidableEq, Repr

/-- `UfileProtocol` (object.rs lines 15-19). -/
inductive UfileProtocol where
  | http
  | https
deriving DecidableEq, Repr

/-- `ObjectConfig` (object.rs lines 73-102). -/
structure ObjectConfig where
  endpoint : String
  private_key : String
  public_key : String
  region : String
  proxy_suffix : Option String
  custom_host : Option String
  protocol : UfileProtocol
deriving DecidableEq, Repr

/-- The `x-ufile-copy-source` header line of the canonical string
(auth.rs lines 49-53): present fields contribute `x-ufile-copy-source:<v>\n`,
absent fields contribute the empty string. -/
def copySourceLine (p : ObjectOptAuthParam) : String :=
  match p.x_ufile_copy_source with
  | some src => "x-ufile-copy-source:" ++ src ++ "\n"
  | none => ""

/-- The `x-ufile-copy-source-range` header line (auth.rs lines 55-59). -/
def copySourceRangeLine (p : ObjectOptAuthParam) : String :=
  match p.x_ufile_copy_source_range with
  | some range => "x-ufile-copy-source-range:" ++ range ++ "\n"
  | none => ""

/-- The canonical string built by `AuthorizationService::authorization`
(auth.rs lines 61-70), modelled as the same sequence of `push_str` calls
folded over an initially empty string. -/
def signData (p : ObjectOptAuthParam) : String :=
  [p.method ++ "\n",
   p.content_md5.getD "" ++ "\n",
   p.content_type.getD "" ++ "\n",
   p.date.getD "" ++ "\n",
   copySourceLine p,
   copySourceRangeLine p,
   "/" ++ p.bucket,
   "/" ++ p.key_name].foldl (· ++ ·) ""

/-- `AuthorizationService::authorization` (auth.rs lines 36-86): sign the
canonical string with the private key and wrap the result as
`UCloud {public_key}:{signature}`. -/
def authorization (p : ObjectOptAuthParam) (cfg : ObjectConfig) : String :=
  "UCloud " ++ cfg.public_key ++ ":" ++ hmacSha1Signature cfg.private_key (signData p)

/-- Canonical string as worded by the specification: the four newline-
terminated lines, the two optional header lines (omitted entirely when
absent), then `/bucket` and `/key` concatenated with no separating newline. -/
def claimCanonicalString (p : ObjectOptAuthParam) : String :=
  p.method ++ "\n"
    ++ (p.content_md5.getD "" ++ "\n")
    ++ (p.content_type.getD "" ++ "\n")
    ++ (p.date.getD "" ++ "\n")
    ++ copySourceLine p
    ++ copySourceRangeLine p
    ++ ("/" ++ p.bucket ++ ("/" ++ p.key_name))

/-- `ObjectConfig::authorization_private_url`'s canonical string
(object.rs lines 170-178): `format!("{}\n{}\n{}\n{}\n/{}/{}", method, "",
"", expires, bucket_name, key_name)`. -/
def privateUrlSignData (method bucket keyName expires : String) : String :=
  method ++ "\n" ++ "" ++ "\n" ++ "" ++ "\n" ++ expires ++ "\n/" ++ bucket ++ "/" ++ keyName

/-- Rust `str::parse::<u64>`: all-digit non-empty strings parse to their
decimal value, everything else is an error.  (The `+` sign prefix and the
`u64` overflow error cannot arise for the expiry strings this repository
produces, and are not modelled.) -/
def parseU64 (s : String) : Option Nat :=
  if s.data ≠ [] ∧ s.data.all Char.isDigit then
    some (s.data.foldl (fun n c => n * 10 + (c.toNat - 48)) 0)
  else none

/-- `ObjectConfig::authorization_private_url` (object.rs lines 152-182).
`expires` is a string and goes through `parse::<u64>()?` before the zero
check, exactly as in the source. -/
def authorization_private_url (cfg : ObjectConfig) (method bucket keyName expires : String) :
    Except String String :=
  if bucket = "" then Except.error "bucket must not be empty."
  else if keyName = "" then Except.error "key_name must not be empty."
  else
    match parseU64 expires with
    | none => Except.error "invalid digit found in string"
    | some n =>
      if n = 0 then Except.error "expires must not be zero."
      else Except.ok (hmacSha1Signature cfg.private_key
        (privateUrlSignData method bucket keyName expires))

/-! ### Date header formatting (`chrono`'s `Local::now().format(..)`).
The `chrono` crate's strftime-style formatter substitutes `%Y`, `%m`, `%d`,
`%H`, `%M`, `%S` (zero-padded) and copies every other character literally. -/

/-- A local wall-clock timestamp. -/
structure LocalDateTime where
  year : Nat
  month : Nat
  day : Nat
  hour : Nat
  minute : Nat
  second : Nat
deriving DecidableEq, Repr

/-- Zero-padded two-digit decimal rendering. -/
def pad2 (n : Nat) : String := if n < 10 then "0" ++ toString n else toString n

/-- One `%`-specifier of the chrono formatter (only the specifiers used by
this repository are given meaning). -/
def chronoSpec (c : Char) (dt : LocalDateTime) : String :=
  if c = 'Y' then toString dt.year
  else if c = 'm' then pad2 dt.month
  else if c = 'd' then pad2 dt.day
  else if c = 'H' then pad2 dt.hour
  else if c = 'M' then pad2 dt.minute
  else if c = 'S' then pad2 dt.second
  else "%" ++ String.singleton c

/-- Walk the format string: a `%`-pair is substituted, any other character
is copied literally. -/
def chronoFormatAux : List Char → LocalDateTime → String
  | [], _ => ""
  | '%' :: c :: rest, dt => chronoSpec c dt ++ chronoFormatAux rest dt
  | c :: rest, dt => String.singleton c ++ chronoFormatAux rest dt

/-- `Local::now().format(fmt).to_string()` for a given wall-clock time. -/
def chronoFormat (fmt : String) (dt : LocalDateTime) : String :=
  chronoFormatAux fmt.data dt

/-- The format string of the multipart init operation
(multipart_init.rs line 63; identically init_part_api.rs line 60):
note the `&Y` where the other operations have `%Y`. -/
def multipartInitDateFormat : String := "&Y%m%d%H%M%S"

/-- The format string of the part upload operation
(multipart_file.rs line 57; identically part_file_api.rs line 56). -/
def partUploadDateFormat : String := "%Y%m%d%H%M%S"

/-- The format string of the finish operation
(multipart_finish.rs line 93; identically finish_multipart_api.rs line 81). -/
def multipartFinishDateFormat : String := "%Y%m%d%H%M%S"

/-- The format string of the abort operation
(multipart_abort.rs line 57; identically abort_multipart_api.rs line 51). -/
def multipartAbortDateFormat : String := "%Y%m%d%H%M%S"

/-- The format string of the single-put operation
(put_file.rs line 81; identically put_file_api.rs line 81). -/
def putFileDateFormat : String := "%Y%m%d%H%M%S"

/-- Whether a string is 14 decimal digits, i.e. of the shape
`YYYYMMDDhhmmss`. -/
def isYYYYMMDDhhmmss (s : String) : Bool :=
  s.length == 14 && s.data.all Char.isDigit

/-! ### Finish request body (`src/api/multipart_finish.rs` lines 129-140;
identically `src/api/finish_multipart_api.rs` lines 115-128) -/

/-- `MultipartUploadState` (object.rs lines 229-237): the headers map is
modelled as an association list. -/
structure MultipartUploadState where
  headers : List (String × String)
  part_number : Nat
  etag : String
deriving DecidableEq, Repr

/-- The comparison used by
`part_states.sort_by(|a, b| a.part_number.cmp(&b.part_number))`. -/
def partNumberLe (a b : MultipartUploadState) : Bool :=
  a.part_number ≤ b.part_number

/-- Rust `Vec::sort_by` is a stable sort; `List.mergeSort` is the stable
sort of the embedding. -/
def sortPartStates (l : List MultipartUploadState) : List MultipartUploadState :=
  l.mergeSort partNumberLe

/-- The Finish POST body: ETags of the sorted part states joined with `,`
(`.map(|item| item.etag.clone()).collect::<Vec<_>>().join(",")`). -/
def finishBody (l : List MultipartUploadState) : String :=
  String.intercalate "," ((sortPartStates l).map MultipartUploadState.etag)

/-- The `Content-Length` header value of the Finish request:
`body_buffer.len().to_string()` — the byte length of the body. -/
def finishContentLengthValue (l : List MultipartUploadState) : String :=
  toString (finishBody l).utf8ByteSize

/-! ### Part upload URL (`src/api/part_file_api.rs` lines 101-106;
identically `src/api/multipart_file.rs` lines 103-109) -/

/-- `format!("{url}?uploadId={}&partNumber={}", state.upload_id, part_index)`. -/
def uploadPartUrl (hostUrl uploadId : String) (partIndex : Nat) : String :=
  hostUrl ++ "?uploadId=" ++ uploadId ++ "&partNumber=" ++ toString partIndex

/-- The part indexes assigned by the multipart upload coordinator:
`for index in 0..part_count` builds each part api with
`.part_index(index)` (object_api.rs lines 133 and 145). -/
def coordinatorPartIndices (fileSize blkSize : Nat) : List Nat :=
  List.range (uploadPartCount fileSize blkSize)

/-! ### Multipart coordinator tail (`src/api/object_api.rs` lines 195-215) -/

/-- Observable actions of `CombinatedMultipartPutApi::execute` after the
init call: one part upload task per index, then possibly one Finish call.
There is no abort call anywhere in the coordinator. -/
inductive UploadEvent where
  | partUpload (index : Nat)
  | finishCall (body : String)
  | abortCall
deriving DecidableEq, Repr

/-- The collection loop over the joined task results:
`for result in results { parts_state.push(result??); }` — stops at the
first error in task (= part index) order. -/
def collectPartStates :
    List (Except String MultipartUploadState) → Except String (List MultipartUploadState)
  | [] => Except.ok []
  | Except.error e :: _ => Except.error e
  | Except.ok s :: rest => (collectPartStates rest).map (s :: ·)

/-- The error of the first failing part in part order, if any. -/
def firstUploadError : List (Except String MultipartUploadState) → Option String
  | [] => none
  | Except.error e :: _ => some e
  | Except.ok _ :: rest => firstUploadError rest

/-- The events of the coordinator tail: `join_all` resolves every spawned
part task (no sibling is cancelled), then the Finish request is issued only
when every part succeeded. -/
def multipartCoordinatorEvents
    (results : List (Except String MultipartUploadState)) : List UploadEvent :=
  ((List.range results.length).map UploadEvent.partUpload) ++
    (match collectPartStates results with
     | Except.ok parts => [UploadEvent.finishCall (finishBody parts)]
     | Except.error _ => [])

/-- The value returned to the caller: the first part error via `?`, or the
Finish request (represented by its body) when all parts succeeded. -/
def multipartCoordinatorResult
    (results : List (Except String MultipartUploadState)) : Except String String :=
  (collectPartStates results).map finishBody

/-! ### Concurrency gates -/

/-- The semaphore created by the multipart upload coordinator:
`let semaphore = Arc::new(Semaphore::new(5));` (object_api.rs line 142) —
the configured `concurrency` field is not consulted. -/
def uploadSemaphorePermits (_configConcurrency : Nat) : Nat := 5

/-- The `#[default(4)]` of `CombinatedMultipartPutApi::concurrency`
(object_api.rs line 88). -/
def combinatedDefaultConcurrency : Nat := 4

/-- The semaphore created by the download coordinator
(download_file.rs lines 117-122): the caller-supplied value, else
`DEFAULT_CONCURRENCY`. -/
def downloadSemaphorePermits (concurrency : Option Nat) : Nat :=
  match concurrency with
  | some c => c
  | none => DEFAULT_CONCURRENCY

/-! ### Download destination handling (`src/api/download_file.rs`
lines 135-151) -/

/-- Observable actions of the download execute path around the destination
file: creating/truncating the destination, then fetching the ranges. -/
inductive DownloadEvent where
  | createDest
  | fetchRange (r : Nat × Nat)
deriving DecidableEq, Repr

/-- `#[default(true)]` on `DownloadFileConfig::overwrite`
(download_file.rs lines 61-63). -/
def downloadOverwriteDefault : Bool := true

/-- The destination-handling sequence of `DownloadFileOperation::execute`:
if the destination exists and `overwrite` is false, return an error before
`File::create`; otherwise create (truncate) the file and then fetch every
range.  The second component records success. -/
def downloadExecuteTrace (destExists overwrite : Bool) (totalFileSize : Nat) :
    List DownloadEvent × Bool :=
  if destExists && !overwrite then ([], false)
  else (DownloadEvent.createDest ::
    (downloadRanges totalFileSize).map DownloadEvent.fetchRange, true)

end Ufile

namespace Ufile

example : downloadChunkCount 10000000 = 4 := by decide
example : downloadRanges 10000000 =
    [(0, 4194304), (4194304, 8388608), (8388608, 10000000), (12582912, 10000000)] := by
  decide
example : uploadPartCount 10000000 4194304 = 3 := by decide
example : uploadBufferSizes 10000000 4194304 = [4194304, 4194304, 1611392] := by decide
example : uploadRanges 10000000 4194304 =
    [(0, 4194304), (4194304, 8388608), (8388608, 10000000)] := by decide
example : rangeHeaderValue (0, 4194304) = "bytes=0-4194304" := by decide

set_option maxRecDepth 100000 in
example : sha1 [97, 98, 99] =
    [0xa9, 0x99, 0x3e, 0x36, 0x47, 0x06, 0x81, 0x6a, 0xba, 0x3e,
     0x25, 0x71, 0x78, 0x50, 0xc2, 0x6c, 0x9c, 0xd0, 0xd8, 0x9d] := by decide

example : base64Encode [77, 97, 110] = "TWFu" := by decide
example : base64Encode [77, 97] = "TWE=" := by decide
example : base64Encode [77] = "TQ==" := by decide

example : strBytes "Jefe" = [74, 101, 102, 101] := by decide

set_option maxRecDepth 200000 in
example : hmacSha1 [74, 101, 102, 101]
    [119, 104, 97, 116, 32, 100, 111, 32, 121, 97, 32, 119, 97, 110, 116,
     32, 102, 111, 114, 32, 110, 111, 116, 104, 105, 110, 103, 63] =
    [0xef, 0xfc, 0xdf, 0x6a, 0xe5, 0xeb, 0x2f, 0xa2, 0xd2, 0x74,
     0x16, 0xd5, 0xf1, 0x84, 0xdf, 0x9c, 0x25, 0x9a, 0x7c, 0x79] := by decide

end Ufile

namespace Ufile

/-! ## Supporting lemmas -/

/-- The `push_str` sequence of auth.rs builds exactly the canonical string
described by the specification. -/
theorem signData_eq_claim (p : ObjectOptAuthParam) :
    signData p = claimCanonicalString p := by
  unfold signData claimCanonicalString
  simp only [List.foldl]
  simp [String.empty_append, String.append_assoc]

/-- The private-url canonical string in claim-style concatenation. -/
theorem privateUrlSignData_eq (m b k e : String) :
    privateUrlSignData m b k e =
      m ++ "\n" ++ "\n" ++ "\n" ++ e ++ "\n" ++ "/" ++ b ++ "/" ++ k := by
  unfold privateUrlSignData
  simp [show ("\n/" : String) = "\n" ++ "/" from rfl, String.append_empty,
    String.append_assoc]

end Ufile

namespace Ufile

/-- The stable sort of the Finish step yields a list that is weakly sorted
by part number. -/
theorem sortPartStates_pairwise_le (l : List MultipartUploadState) :
    (sortPartStates l).Pairwise
      fun a b => a.part_number ≤ b.part_number := by
  have h := @List.sorted_mergeSort MultipartUploadState partNumberLe
    (fun a b c hab hbc => by
      simp only [partNumberLe, decide_eq_true_eq] at *
      omega)
    (fun a b => by
      simp only [partNumberLe, Bool.or_eq_true, decide_eq_true_eq]
      omega)
    l
  exact h.imp fun hab => by simpa [partNumberLe] using hab

/-- Sorting any permutation of a list with pairwise-distinct part numbers
yields the same list. -/
theorem sortPartStates_eq_of_perm (l q : List MultipartUploadState)
    (hp : q.Perm l)
    (hnd : (l.map MultipartUploadState.part_number).Nodup) :
    sortPartStates q = sortPartStates l := by
  haveI : IsAntisymm MultipartUploadState
      (fun a b => a.part_number < b.part_number) :=
    ⟨fun a b h1 h2 => absurd h2 (Nat.lt_asymm h1)⟩
  have hperm : (sortPartStates q).Perm (sortPartStates l) :=
    (List.mergeSort_perm q _).trans (hp.trans (List.mergeSort_perm l _).symm)
  have hndl : ((sortPartStates l).map MultipartUploadState.part_number).Nodup :=
    (((List.mergeSort_perm l partNumberLe).map
      MultipartUploadState.part_number).nodup_iff).mpr hnd
  have hndq : ((sortPartStates q).map MultipartUploadState.part_number).Nodup :=
    ((hperm.map MultipartUploadState.part_number).nodup_iff).mpr hndl
  have hlt : ∀ (m : List MultipartUploadState),
      (m.map MultipartUploadState.part_number).Nodup →
      m.Pairwise (fun a b => a.part_number ≤ b.part_number) →
      m.Pairwise (fun a b => a.part_number < b.part_number) := by
    intro m hm hle
    have hne : m.Pairwise
        (fun a b => a.part_number ≠ b.part_number) :=
      (List.pairwise_map).mp hm
    exact (hle.and hne).imp fun hab => Nat.lt_of_le_of_ne hab.1 hab.2
  exact List.eq_of_perm_of_sorted hperm
    (hlt _ hndq (sortPartStates_pairwise_le q))
    (hlt _ hndl (sortPartStates_pairwise_le l))

/-- `firstUploadError` computes exactly the error at which the collection
loop stops. -/
theorem collectPartStates_error (results : List (Except String MultipartUploadState))
    (e : String) (h : firstUploadError results = some e) :
    collectPartStates results = Except.error e := by
  induction results with
  | nil => simp [firstUploadError] at h
  | cons r rest ih =>
    cases r with
    | error e2 =>
      simp only [firstUploadError, Option.some.injEq] at h
      subst h
      rfl
    | ok s =>
      simp only [firstUploadError] at h
      simp [collectPartStates, ih h, Except.map]

end Ufile

namespace Ufile

/-! ## Claim theorems -/

/-- Claim C1 (code bug): the claim says both coordinators split into exactly
`ceil(totalSize/blockSize)` ranges, with `totalSize = 10000000` and
`blockSize = 4194304` yielding 3 ranges.  The upload coordinator does
(`(file_size + blk_size - 1) / blk_size` = 3 parts covering exactly the three
expected ranges), but the download coordinator applies `div_ceil` to
`total + blockSize - 1`, rounding up twice: on the same input it produces
4 ranges, the extra one being the degenerate `[12582912, 10000000)` whose
start exceeds its end.  The last two conjuncts pin down that the true
ceiling is 3. -/
theorem download_split_chunk_count_bug :
    downloadChunkCount 10000000 = 4 ∧
    downloadRanges 10000000 =
      [(0, 4194304), (4194304, 8388608), (8388608, 10000000), (12582912, 10000000)] ∧
    uploadPartCount 10000000 4194304 = 3 ∧
    uploadRanges 10000000 4194304 = [(0, 4194304), (4194304, 8388608), (8388608, 10000000)] ∧
    2 * 4194304 < 10000000 ∧ 10000000 ≤ 3 * 4194304 := by
  decide

/-- Claim C2 (code bug): the claim says the `Range` header ends at the last
valid byte index of the chunk (`min((i+1)*blockSize, totalSize) - 1`) so that
requested spans are disjoint and never reach `totalSize`.  The code formats
the exclusive `range.end` instead: at `totalSize = 10000000` the first header
is `bytes=0-4194304` (not `bytes=0-4194303`), the byte index 4194304 is also
the start of the second range (so the inclusive spans overlap), and the third
range's header end equals `totalSize` itself, one past the last valid index. -/
theorem download_range_header_bug :
    rangeHeaderValue ((downloadRanges 10000000).getD 0 (0, 0)) = "bytes=0-4194304" ∧
    "bytes=0-4194304" ≠ "bytes=0-4194303" ∧
    ((downloadRanges 10000000).getD 1 (0, 0)).1 = 4194304 ∧
    rangeHeaderValue ((downloadRanges 10000000).getD 2 (0, 0)) = "bytes=8388608-10000000" := by
  decide

/-- Claim C5 (code bug): the claim says every signed operation's `Date`
header is the local time as `YYYYMMDDhhmmss` (14 decimal digits).  The part
upload, finish, abort and single-put operations use the chrono format
`%Y%m%d%H%M%S`, which does produce that shape — but both multipart init
operations use `&Y%m%d%H%M%S` (a typo for `%Y…`), so chrono copies the two
characters `&Y` literally and drops the year: at local time
2026-10-12 14:30:05 the init `Date` value is `&Y1012143005`, which is not
14 decimal digits. -/
theorem multipart_init_date_format_bug :
    chronoFormat multipartInitDateFormat ⟨2026, 10, 12, 14, 30, 5⟩ = "&Y1012143005" ∧
    isYYYYMMDDhhmmss "&Y1012143005" = false ∧
    chronoFormat partUploadDateFormat ⟨2026, 10, 12, 14, 30, 5⟩ = "20261012143005" ∧
    chronoFormat multipartFinishDateFormat ⟨2026, 10, 12, 14, 30, 5⟩ = "20261012143005" ∧
    chronoFormat multipartAbortDateFormat ⟨2026, 10, 12, 14, 30, 5⟩ = "20261012143005" ∧
    chronoFormat putFileDateFormat ⟨2026, 10, 12, 14, 30, 5⟩ = "20261012143005" ∧
    isYYYYMMDDhhmmss "20261012143005" = true := by
  decide

/-- Claim C9 (code bug): the claim says the counting semaphore is created
with the caller-supplied bound (or the documented default).  The download
coordinator does this (`concurrency` or `DEFAULT_CONCURRENCY = 8`), but the
multipart upload coordinator creates `Semaphore::new(5)` regardless of the
configured `concurrency` field (whose documented default is 4): with a
caller bound of 2 the gate still admits 5 concurrent part uploads. -/
theorem upload_semaphore_capacity_bug :
    uploadSemaphorePermits 2 = 5 ∧
    uploadSemaphorePermits combinatedDefaultConcurrency = 5 ∧
    combinatedDefaultConcurrency = 4 ∧
    (5 : Nat) ≠ 4 ∧ (5 : Nat) ≠ 2 ∧
    downloadSemaphorePermits (some 2) = 2 ∧
    downloadSemaphorePermits none = DEFAULT_CONCURRENCY := by
  decide

end Ufile

namespace Ufile

/-- Claim C3 (confirmed): the canonical string signed by
`AuthorizationService::authorization` is exactly method, content-md5,
content-type and date as newline-terminated lines (absent optional fields
contributing an empty line), then an `x-ufile-copy-source:<v>` line and an
`x-ufile-copy-source-range:<v>` line each present only when the field is,
then `/bucket` and `/key` concatenated without a separating newline; the
header value is exactly `UCloud {public_key}:{base64 HMAC-SHA1 signature}`,
and the result is deterministic in its inputs. -/
theorem authorization_canonical_format (p q : ObjectOptAuthParam)
    (cfg dfg : ObjectConfig) (hpq : p = q) (hcd : cfg = dfg) :
    signData p = claimCanonicalString p ∧
    authorization p cfg =
      "UCloud " ++ cfg.public_key ++ ":" ++
        base64Encode (hmacSha1 (strBytes cfg.private_key)
          (strBytes (claimCanonicalString p))) ∧
    authorization p cfg = authorization q dfg := by
  subst hpq hcd
  refine ⟨signData_eq_claim p, ?_, rfl⟩
  unfold authorization hmacSha1Signature
  rw [signData_eq_claim p]

/-- Witness for C3 at a concrete request with both copy-source headers
present and a concrete configuration. -/
theorem authorization_canonical_format_witness :
    signData
        ⟨"PUT", "bkt", "obj.txt", some "text/plain", some "md5v",
          some "20261012143005", some "ufile://b/f", some "bytes=0-99"⟩ =
      claimCanonicalString
        ⟨"PUT", "bkt", "obj.txt", some "text/plain", some "md5v",
          some "20261012143005", some "ufile://b/f", some "bytes=0-99"⟩ ∧
    authorization
        ⟨"PUT", "bkt", "obj.txt", some "text/plain", some "md5v",
          some "20261012143005", some "ufile://b/f", some "bytes=0-99"⟩
        ⟨"https://api.ucloud.cn", "priv", "pub", "cn-sh2", some "ufileos.com",
          none, UfileProtocol.https⟩ =
      "UCloud " ++ "pub" ++ ":" ++
        base64Encode (hmacSha1 (strBytes "priv")
          (strBytes (claimCanonicalString
            ⟨"PUT", "bkt", "obj.txt", some "text/plain", some "md5v",
              some "20261012143005", some "ufile://b/f", some "bytes=0-99"⟩))) := by
  have h := authorization_canonical_format
    ⟨"PUT", "bkt", "obj.txt", some "text/plain", some "md5v",
      some "20261012143005", some "ufile://b/f", some "bytes=0-99"⟩
    ⟨"PUT", "bkt", "obj.txt", some "text/plain", some "md5v",
      some "20261012143005", some "ufile://b/f", some "bytes=0-99"⟩
    ⟨"https://api.ucloud.cn", "priv", "pub", "cn-sh2", some "ufileos.com",
      none, UfileProtocol.https⟩
    ⟨"https://api.ucloud.cn", "priv", "pub", "cn-sh2", some "ufileos.com",
      none, UfileProtocol.https⟩
    rfl rfl
  exact ⟨h.1, h.2.1⟩

end Ufile

namespace Ufile

set_option maxRecDepth 400000

/-- Claim C4 counterexample: the claim (and spec §4.3) say the pre-signed
URL canonical string is `method\n\n\nexpires\n/bucket\n/key`, with a newline
between the `/bucket` and `/key` segments.  The code formats
`…\n/{bucket}/{key}` — no newline between the two path segments — so at a
concrete input the signed string, and with it the produced signature,
differ from the claimed ones. -/
theorem private_url_canonical_newline_counterexample :
    privateUrlSignData "GET" "b" "k" "60" = "GET\n\n\n60\n/b/k" ∧
    "GET\n\n\n60\n/b/k" ≠ "GET\n\n\n60\n/b\n/k" ∧
    authorization_private_url
        ⟨"https://api.ucloud.cn", "priv", "pub", "cn-sh2", none, none,
          UfileProtocol.https⟩ "GET" "b" "k" "60" =
      Except.ok (hmacSha1Signature "priv" "GET\n\n\n60\n/b/k") ∧
    hmacSha1Signature "priv" "GET\n\n\n60\n/b/k" ≠
      hmacSha1Signature "priv" "GET\n\n\n60\n/b\n/k" ∧
    authorization_private_url
        ⟨"https://api.ucloud.cn", "priv", "pub", "cn-sh2", none, none,
          UfileProtocol.https⟩ "GET" "b" "k" "60" ≠
      Except.ok (hmacSha1Signature "priv" "GET\n\n\n60\n/b\n/k") := by
  have hne : hmacSha1Signature "priv" "GET\n\n\n60\n/b/k" ≠
      hmacSha1Signature "priv" "GET\n\n\n60\n/b\n/k" := by decide
  refine ⟨by decide, by decide, rfl, hne, ?_⟩
  intro hc
  rw [show authorization_private_url
      ⟨"https://api.ucloud.cn", "priv", "pub", "cn-sh2", none, none,
        UfileProtocol.https⟩ "GET" "b" "k" "60" =
    Except.ok (hmacSha1Signature "priv" "GET\n\n\n60\n/b/k") from rfl] at hc
  injection hc with h
  exact hne h

end Ufile

namespace Ufile

/-- Claim C4 (amended): `authorization_private_url` signs exactly the
canonical string `method\n\n\nexpires\n/bucket/key` — two empty lines for
content-md5 and content-type, but **no** newline between the `/bucket` and
`/key` segments — and, for an expiry string denoting the number `n`, it
returns an error if and only if the bucket is empty, the key is empty, or
`n` is zero. -/
theorem authorization_private_url_amended (cfg : ObjectConfig)
    (method bucket keyName expires : String) (n : Nat)
    (hn : parseU64 expires = some n) :
    ((authorization_private_url cfg method bucket keyName expires).isOk = true ↔
      (bucket ≠ "" ∧ keyName ≠ "" ∧ n ≠ 0)) ∧
    (bucket ≠ "" → keyName ≠ "" → n ≠ 0 →
      authorization_private_url cfg method bucket keyName expires =
        Except.ok (hmacSha1Signature cfg.private_key
          (method ++ "\n" ++ "\n" ++ "\n" ++ expires ++ "\n" ++ "/" ++ bucket
            ++ "/" ++ keyName))) := by
  constructor
  · by_cases hb : bucket = ""
    · simp [authorization_private_url, hb, Except.isOk, Except.toBool]
    · by_cases hk : keyName = ""
      · simp [authorization_private_url, hb, hk, Except.isOk, Except.toBool]
      · by_cases h0 : n = 0
        · simp [authorization_private_url, hb, hk, hn, h0, Except.isOk, Except.toBool]
        · simp [authorization_private_url, hb, hk, hn, h0, Except.isOk, Except.toBool]
  · intro hb hk h0
    simp [authorization_private_url, hb, hk, hn, h0, privateUrlSignData_eq]

/-- Witness for the amended C4 at a concrete configuration and expiry. -/
theorem authorization_private_url_amended_witness :
    parseU64 "3600" = some 3600 ∧
    ((authorization_private_url
        ⟨"https://api.ucloud.cn", "priv", "pub", "cn-sh2", none, none,
          UfileProtocol.https⟩ "GET" "bucket" "key" "3600").isOk = true ↔
      (("bucket" : String) ≠ "" ∧ ("key" : String) ≠ "" ∧ (3600 : Nat) ≠ 0)) ∧
    authorization_private_url
        ⟨"https://api.ucloud.cn", "priv", "pub", "cn-sh2", none, none,
          UfileProtocol.https⟩ "GET" "bucket" "key" "3600" =
      Except.ok (hmacSha1Signature "priv"
        ("GET" ++ "\n" ++ "\n" ++ "\n" ++ "3600" ++ "\n" ++ "/" ++ "bucket"
          ++ "/" ++ "key")) := by
  have h := authorization_private_url_amended
    ⟨"https://api.ucloud.cn", "priv", "pub", "cn-sh2", none, none,
      UfileProtocol.https⟩ "GET" "bucket" "key" "3600" 3600 (by decide)
  exact ⟨by decide, h.1, h.2 (by decide) (by decide) (by decide)⟩

/-- Claim C6 (confirmed): over part results with pairwise-distinct part
numbers — the coordinator assigns each part its own number — the Finish
request body is the comma-joined ETags sorted ascending by part number,
identically for every completion order (permutation) of the results, and
the `Content-Length` value is the byte length of that body. -/
theorem finish_body_perm_invariant (l q : List MultipartUploadState)
    (hp : q.Perm l) (hnd : (l.map MultipartUploadState.part_number).Nodup) :
    finishBody q =
      String.intercalate "," ((sortPartStates l).map MultipartUploadState.etag) ∧
    finishContentLengthValue q = toString (finishBody q).utf8ByteSize := by
  constructor
  · unfold finishBody
    rw [sortPartStates_eq_of_perm l q hp hnd]
  · rfl

/-- Witness for C6: two parts finishing in reversed order produce the same
body as the split order. -/
theorem finish_body_perm_invariant_witness :
    ([⟨[], 2, "bb"⟩, ⟨[], 1, "aa"⟩] : List MultipartUploadState).Perm
      [⟨[], 1, "aa"⟩, ⟨[], 2, "bb"⟩] ∧
    finishBody [⟨[], 2, "bb"⟩, ⟨[], 1, "aa"⟩] =
      String.intercalate ","
        ((sortPartStates [⟨[], 1, "aa"⟩, ⟨[], 2, "bb"⟩]).map
          MultipartUploadState.etag) ∧
    finishContentLengthValue [⟨[], 2, "bb"⟩, ⟨[], 1, "aa"⟩] =
      toString (finishBody [⟨[], 2, "bb"⟩, ⟨[], 1, "aa"⟩]).utf8ByteSize := by
  have hperm := List.Perm.swap (⟨[], 1, "aa"⟩ : MultipartUploadState)
    (⟨[], 2, "bb"⟩ : MultipartUploadState) []
  have h := finish_body_perm_invariant
    [⟨[], 1, "aa"⟩, ⟨[], 2, "bb"⟩] [⟨[], 2, "bb"⟩, ⟨[], 1, "aa"⟩]
    hperm (by decide)
  exact ⟨hperm, h.1, h.2⟩

/-- Claim C7 counterexample: the claim says part numbering is 1-based, the
`partNumber` query parameter for the first (0-indexed) range being 1.  The
coordinator assigns `part_index = index` for `index in 0..part_count` and
the part URL interpolates that index unchanged, so the first range is sent
with `partNumber=0`, not `partNumber=1`. -/
theorem part_number_zero_based_counterexample :
    (coordinatorPartIndices 10000000 4194304).getD 0 99 = 0 ∧
    uploadPartUrl "https://bkt.cn-sh2.ufileos.com/obj" "abc123" 0 =
      "https://bkt.cn-sh2.ufileos.com/obj?uploadId=abc123&partNumber=0" ∧
    "https://bkt.cn-sh2.ufileos.com/obj?uploadId=abc123&partNumber=0" ≠
      "https://bkt.cn-sh2.ufileos.com/obj?uploadId=abc123&partNumber=1" := by
  decide

/-- Claim C7 (amended): part numbers are assigned 0-based in split order —
the `partNumber` query parameter sent for the 0-indexed range `j` is `j`
itself — and the assigned numbers are stable and contiguous (`0..part_count`). -/
theorem part_numbering_zero_based (fileSize blkSize j : Nat)
    (hj : j < uploadPartCount fileSize blkSize) :
    coordinatorPartIndices fileSize blkSize =
      List.range (uploadPartCount fileSize blkSize) ∧
    (coordinatorPartIndices fileSize blkSize).getD j 0 = j ∧
    ∀ host uploadId,
      uploadPartUrl host uploadId
          ((coordinatorPartIndices fileSize blkSize).getD j 0) =
        host ++ "?uploadId=" ++ uploadId ++ "&partNumber=" ++ toString j := by
  have hg : (coordinatorPartIndices fileSize blkSize).getD j 0 = j := by
    unfold coordinatorPartIndices
    simp [List.getD, List.getElem?_range, hj]
  exact ⟨rfl, hg, fun host uploadId =>
    (congrArg (uploadPartUrl host uploadId) hg).trans rfl⟩

/-- Witness for the amended C7: the third range (index 2) of the
10000000-byte upload carries `partNumber=2`. -/
theorem part_numbering_zero_based_witness :
    (coordinatorPartIndices 10000000 4194304).getD 2 0 = 2 ∧
    uploadPartUrl "https://h/obj" "uid1"
        ((coordinatorPartIndices 10000000 4194304).getD 2 0) =
      "https://h/obj" ++ "?uploadId=" ++ "uid1" ++ "&partNumber=" ++ toString 2 := by
  have h := part_numbering_zero_based 10000000 4194304 2 (by decide)
  exact ⟨h.2.1, h.2.2 "https://h/obj" "uid1"⟩

/-- Claim C8 (confirmed): when some part fails, the coordinator still
resolves every dispatched part task (`join_all`; every part event is in the
trace), returns the first failing part's error, never issues the Finish
request, and issues no Abort of its own. -/
theorem multipart_failure_first_error
    (results : List (Except String MultipartUploadState)) (e : String)
    (h : firstUploadError results = some e) :
    multipartCoordinatorResult results = Except.error e ∧
    (∀ b, UploadEvent.finishCall b ∉ multipartCoordinatorEvents results) ∧
    UploadEvent.abortCall ∉ multipartCoordinatorEvents results ∧
    ∀ i, i < results.length →
      UploadEvent.partUpload i ∈ multipartCoordinatorEvents results := by
  have hc := collectPartStates_error results e h
  refine ⟨?_, ?_, ?_, ?_⟩
  · simp [multipartCoordinatorResult, hc, Except.map]
  · intro b
    simp [multipartCoordinatorEvents, hc]
  · simp [multipartCoordinatorEvents, hc]
  · intro i hi
    unfold multipartCoordinatorEvents
    rw [hc]
    simp only [List.mem_append, List.mem_map, List.mem_range]
    exact Or.inl ⟨i, hi, rfl⟩

/-- Witness for C8: part 2 of 3 fails with a transport error; the error is
surfaced, no Finish call appears, no Abort appears, and parts 1 and 3 still
resolved. -/
theorem multipart_failure_first_error_witness :
    firstUploadError
        [Except.ok ⟨[], 0, "e0"⟩, Except.error "transport error",
          Except.ok ⟨[], 2, "e2"⟩] = some "transport error" ∧
    multipartCoordinatorResult
        [Except.ok ⟨[], 0, "e0"⟩, Except.error "transport error",
          Except.ok ⟨[], 2, "e2"⟩] = Except.error "transport error" ∧
    (UploadEvent.finishCall "" ∉ multipartCoordinatorEvents
      [Except.ok ⟨[], 0, "e0"⟩, Except.error "transport error",
        Except.ok ⟨[], 2, "e2"⟩]) ∧
    (UploadEvent.abortCall ∉ multipartCoordinatorEvents
      [Except.ok ⟨[], 0, "e0"⟩, Except.error "transport error",
        Except.ok ⟨[], 2, "e2"⟩]) ∧
    UploadEvent.partUpload 0 ∈ multipartCoordinatorEvents
      [Except.ok ⟨[], 0, "e0"⟩, Except.error "transport error",
        Except.ok ⟨[], 2, "e2"⟩] ∧
    UploadEvent.partUpload 2 ∈ multipartCoordinatorEvents
      [Except.ok ⟨[], 0, "e0"⟩, Except.error "transport error",
        Except.ok ⟨[], 2, "e2"⟩] := by
  have h := multipart_failure_first_error
    [Except.ok ⟨[], 0, "e0"⟩, Except.error "transport error",
      Except.ok ⟨[], 2, "e2"⟩] "transport error" rfl
  exact ⟨rfl, h.1, h.2.1 "", h.2.2.1, h.2.2.2 0 (by decide), h.2.2.2 2 (by decide)⟩

/-- Claim C10 (confirmed): when the destination exists and `overwrite` is
false the download returns an error before creating or truncating the
destination (no create event); when `overwrite` is true — the default —
the destination is created/truncated first and only then are the ranges
fetched. -/
theorem download_overwrite_guard (destExists overwrite : Bool) (n : Nat) :
    (destExists = true → overwrite = false →
      downloadExecuteTrace destExists overwrite n = ([], false)) ∧
    (overwrite = true →
      downloadExecuteTrace destExists overwrite n =
        (DownloadEvent.createDest ::
          (downloadRanges n).map DownloadEvent.fetchRange, true)) ∧
    downloadOverwriteDefault = true := by
  refine ⟨?_, ?_, rfl⟩
  · intro he ho
    subst he ho
    rfl
  · intro ho
    subst ho
    cases destExists <;> rfl

/-- Witness for C10 at a concrete size with both flag combinations. -/
theorem download_overwrite_guard_witness :
    downloadExecuteTrace true false 10000000 = ([], false) ∧
    downloadExecuteTrace true true 10000000 =
      (DownloadEvent.createDest ::
        (downloadRanges 10000000).map DownloadEvent.fetchRange, true) := by
  exact ⟨(download_overwrite_guard true false 10000000).1 rfl rfl,
    (download_overwrite_guard true true 10000000).2.1 rfl⟩

end Ufile
